import Mathlib

/-!
Verification development for the channel-scraping ingestion pipeline
(`scraper/scraper/scrapers.py`, `flood_error_caretaker.py`, `consumer.py`).
Clock readings (`time.time()`) and message dates are modelled as integers --
every claim about them is order-theoretic and none depends on fractional
seconds -- and fallible Python code as `Except`.
-/

/-- Python-level errors that the modelled code can raise.  Telethon error
classes caught in `ChannelScraper.scrape` are modelled separately as
`ScrapeErr`; this type covers the errors that the claims observe directly. -/
inductive PyError : Type
  | typeError
  | valueError
  | floodWait (seconds : Int)
  deriving DecidableEq, Repr

/-- State of `FloodCaretaker` (flood_error_caretaker.py, lines 20-24).
`get_inp_ent_delay` is the required constructor argument; the remaining three
fields start as `None`. -/
structure FloodCaretaker : Type where
  get_inp_ent_delay : Int
  last_get_inp_ent_call : Option Int
  fwe_delay : Option Int
  last_fwe : Option Int
  deriving DecidableEq, Repr

namespace FloodCaretaker

/-- Calling the `FloodCaretaker` constructor.  The single parameter
`get_inp_ent_delay` has no default, so a call without an argument raises
`TypeError` (missing required positional argument). -/
def initPy (arg : Option Int) : Except PyError FloodCaretaker :=
  match arg with
  | none => .error .typeError
  | some d => .ok ⟨d, none, none, none⟩

/-- `FloodCaretaker.add_fwe` (lines 58-63): record a FloodWaitError event at
time `now`. -/
def add_fwe (st : FloodCaretaker) (fwe_delay : Int) (now : Int) : FloodCaretaker :=
  { st with fwe_delay := some fwe_delay, last_fwe := some now }

/-- The second half of `FloodCaretaker.check` (lines 44-56): enforce the
minimum spacing between `get_input_entity` calls by sleeping the remaining
time, then stamp `last_get_inp_ent_call` with the post-sleep clock.  Returns
the new state together with the number of seconds slept. -/
def checkSpacing (st : FloodCaretaker) (now : Int) : Except PyError (FloodCaretaker × Int) :=
  let slept : Int :=
    match st.last_get_inp_ent_call with
    | none => 0
    | some tc => if now - tc < st.get_inp_ent_delay then st.get_inp_ent_delay - (now - tc) else 0
  .ok ({ st with last_get_inp_ent_call := some (now + slept) }, slept)

/-- `FloodCaretaker.check` (lines 26-56) called at clock value `now`.
If a FloodWaitError cooldown is active it raises a `FloodWaitError` whose
`seconds` is the remaining wait (the source passes
`int(remaining_wait_fwe)` to the error constructor, exact at the integer
clock granularity used here); `fwe_delay` set while
`last_fwe` is `None` would make the source subtract `None` from a float,
a `TypeError`.  Otherwise it falls through to the spacing logic. -/
def check (st : FloodCaretaker) (now : Int) : Except PyError (FloodCaretaker × Int) :=
  match st.fwe_delay with
  | some d =>
    match st.last_fwe with
    | none => .error .typeError
    | some tf =>
      if now - tf < d then .error (.floodWait (d - (now - tf)))
      else checkSpacing st now
  | none => checkSpacing st now

/-- Remaining minimum-spacing wait at time `now`: how long `check` sleeps
when it succeeds. -/
def spacingRemaining (st : FloodCaretaker) (now : Int) : Int :=
  match st.last_get_inp_ent_call with
  | none => 0
  | some tc => if now - tc < st.get_inp_ent_delay then st.get_inp_ent_delay - (now - tc) else 0

end FloodCaretaker

/-- In-memory state of a constructed `ChannelScraper` (scrapers.py, lines
59-62). -/
structure ChannelScraperObj : Type where
  tg_client : Int
  scraper_id : Int
  flood_care : FloodCaretaker

namespace ChannelScraper

/-- `ChannelScraper.__init__` (scrapers.py, lines 59-62): stores the client
and scraper id and evaluates `FloodCaretaker()` — a constructor call with no
argument. -/
def init (tg_client : Int) (scraper_id : Int) : Except PyError ChannelScraperObj :=
  (FloodCaretaker.initPy none).map (fun fc => ⟨tg_client, scraper_id, fc⟩)

end ChannelScraper

namespace Consumer

/-- `Consumer.create_tg_scraper` (consumer.py, lines 50-57): connect the
client and construct `ChannelScraper(tg_client, self.scraper_id)`. -/
def create_tg_scraper (tg_client : Int) (scraper_id : Int) : Except PyError ChannelScraperObj :=
  ChannelScraper.init tg_client scraper_id

end Consumer

/-- C3: for every TelegramClient handle and scraper id, `ChannelScraper.__init__`
raises `TypeError`, because it evaluates `FloodCaretaker()` without the required
`get_inp_ent_delay` argument; hence `Consumer.create_tg_scraper` can never
produce a working scraper either. -/
theorem channel_scraper_init_always_type_error (tg sid : Int) :
    ChannelScraper.init tg sid = .error .typeError ∧
    Consumer.create_tg_scraper tg sid = .error .typeError := by
  exact ⟨rfl, rfl⟩

/-- C4: after `recordLimit(T)` (i.e. `add_fwe T` at clock `t0`), every `check`
strictly before `T` seconds have elapsed raises the rate-limited error carrying
the remaining wait, and every `check` once `T` has elapsed succeeds. -/
theorem rate_gate_raises_iff (st : FloodCaretaker) (t0 T now : Int) :
    (now - t0 < T →
      (st.add_fwe T t0).check now = .error (.floodWait (T - (now - t0)))) ∧
    (T ≤ now - t0 →
      ∃ st2 slept, (st.add_fwe T t0).check now = .ok (st2, slept)) := by
  constructor
  · intro h
    simp only [FloodCaretaker.add_fwe, FloodCaretaker.check, if_pos h]
  · intro h
    simp only [FloodCaretaker.add_fwe, FloodCaretaker.check, FloodCaretaker.checkSpacing,
      if_neg (not_lt.mpr h)]
    exact ⟨_, _, rfl⟩

/-- Closed instance of `rate_gate_raises_iff`: with the limit `T = 10` recorded
at `t0 = 0`, a check at clock 5 (strictly inside the window) raises with 5
seconds remaining, and a check at clock 12 (past the window) succeeds. -/
theorem rate_gate_raises_iff_witness :
    ((5:Int) - 0 < 10 ∧
      (FloodCaretaker.add_fwe ⟨0, none, none, none⟩ 10 0).check 5 =
        .error (.floodWait (10 - (5 - 0)))) ∧
    ((10:Int) ≤ 12 - 0 ∧
      ∃ st2 slept,
        (FloodCaretaker.add_fwe ⟨0, none, none, none⟩ 10 0).check 12 = .ok (st2, slept)) := by
  refine ⟨⟨by decide, ?_⟩, ⟨by decide, ?_⟩⟩
  · exact (rate_gate_raises_iff ⟨0, none, none, none⟩ 0 10 5).1 (by decide)
  · exact (rate_gate_raises_iff ⟨0, none, none, none⟩ 0 10 12).2 (by decide)

/-- C9 counterexample: the claim states `check()` never blocks or sleeps the
caller, but with a resolution call on record at clock 0 and a spacing delay of
10, a `check` at clock 5 sleeps for 5 seconds (`time.sleep(remaining_wait_call)`
in the source, lines 49-53) before succeeding. -/
theorem check_sleeps_on_spacing_counterexample :
    FloodCaretaker.check ⟨10, some 0, none, none⟩ 5 =
      .ok (⟨10, some 10, none, none⟩, 5) ∧ (5:Int) ≠ 0 := by
  exact ⟨rfl, by decide⟩

/-- C9 amended: `check` never blocks on the flood cooldown — an active cooldown
makes it fail fast with the rate-limited error — but a successful `check` first
sleeps exactly the remaining minimum-spacing delay (0 when no recent resolution
call is on record) and stamps the post-sleep clock. -/
theorem check_sleep_semantics (st : FloodCaretaker) (now : Int) :
    (∀ st2 slept, st.check now = .ok (st2, slept) →
      slept = st.spacingRemaining now ∧
      st2 = { st with last_get_inp_ent_call := some (now + slept) }) ∧
    (∀ d tf, st.fwe_delay = some d → st.last_fwe = some tf → now - tf < d →
      st.check now = .error (.floodWait (d - (now - tf)))) := by
  constructor
  · intro st2 slept h
    rcases st with ⟨del, lc, fd, lf⟩
    cases fd with
    | none =>
      simp only [FloodCaretaker.check, FloodCaretaker.checkSpacing] at h
      injection h with h
      injection h with h1 h2
      subst h2
      exact ⟨rfl, h1.symm⟩
    | some d =>
      cases lf with
      | none => simp [FloodCaretaker.check] at h
      | some tf =>
        simp only [FloodCaretaker.check] at h
        by_cases hlt : now - tf < d
        · rw [if_pos hlt] at h
          cases h
        · rw [if_neg hlt] at h
          simp only [FloodCaretaker.checkSpacing] at h
          injection h with h
          injection h with h1 h2
          subst h2
          exact ⟨rfl, h1.symm⟩
  · intro d tf hd htf hlt
    rcases st with ⟨del, lc, fd, lf⟩
    cases hd
    cases htf
    simp only [FloodCaretaker.check, if_pos hlt]

/-- Closed instance of `check_sleep_semantics`: the successful check from the
C9 counterexample state sleeps exactly the spacing remainder, and a check
during an active cooldown (delay 7 recorded at clock 1, checked at clock 3)
fails fast with 5 seconds remaining. -/
theorem check_sleep_semantics_witness :
    ((5:Int) = FloodCaretaker.spacingRemaining ⟨10, some 0, none, none⟩ 5) ∧
    FloodCaretaker.check ⟨0, none, some 7, some 1⟩ 3 =
      .error (.floodWait (7 - (3 - 1))) := by
  constructor
  · exact ((check_sleep_semantics ⟨10, some 0, none, none⟩ 5).1
      ⟨10, some 10, none, none⟩ 5 rfl).1
  · exact (check_sleep_semantics ⟨0, none, some 7, some 1⟩ 3).2 7 1 rfl rfl (by decide)

/-- One row of the `peers` table (database.py): keyed by
(channel handle, scraper identity), holding the resolved id and access hash. -/
structure PeerRow : Type where
  scraper_id : Int
  channel_name : String
  channel_id : Int
  access_hash : Int
  deriving DecidableEq, Repr

/-- The `SELECT ... WHERE Peers.channel_name == ... AND Peers.scraper_id == ...`
lookup at the top of `get_peer` (scrapers.py, lines 83-91). -/
def lookupPeer (db : List PeerRow) (channel_name : String) (scraper_id : Int) : Option PeerRow :=
  db.find? (fun p => p.channel_name == channel_name && p.scraper_id == scraper_id)

/-- Observable outcome of one `get_peer` call: the returned (or raised) value,
the peers table afterwards, the rate-controller state afterwards, and whether
the external `get_input_entity` call and the `flood_care.check()` call were
made. -/
structure GetPeerOut : Type where
  result : Except PyError (Int × Int)
  db : List PeerRow
  fc : FloodCaretaker
  resolveCalled : Bool
  floodChecked : Bool

namespace ChannelScraper

/-- `ChannelScraper.get_peer` (scrapers.py, lines 70-119).  On a cache hit the
stored pair is returned at once; on a miss, `flood_care.check()` gates the
external `get_input_entity` call (modelled by the `resolveUsername` oracle),
a `FloodWaitError` from the platform is recorded via `add_fwe` and re-raised,
and a successful resolution is persisted as a new `Peers` row. -/
def get_peer (db : List PeerRow) (scraper_id : Int) (fc : FloodCaretaker) (now : Int)
    (resolveUsername : String → Except PyError (Int × Int)) (channel_name : String) :
    GetPeerOut :=
  match lookupPeer db channel_name scraper_id with
  | some p => ⟨.ok (p.channel_id, p.access_hash), db, fc, false, false⟩
  | none =>
    match fc.check now with
    | .error e => ⟨.error e, db, fc, false, true⟩
    | .ok (fc2, slept) =>
      match resolveUsername channel_name with
      | .error (.floodWait secs) =>
        ⟨.error (.floodWait secs), db, fc2.add_fwe secs (now + slept), true, true⟩
      | .error e => ⟨.error e, db, fc2, true, true⟩
      | .ok (cid, ah) =>
        ⟨.ok (cid, ah), db ++ [⟨scraper_id, channel_name, cid, ah⟩], fc2, true, true⟩

end ChannelScraper

/-- A `find?` that fails on `l1` continues through an appended tail. -/
theorem find?_append_of_none {α : Type} (p : α → Bool) {l1 : List α} (l2 : List α)
    (h : l1.find? p = none) : (l1 ++ l2).find? p = l2.find? p := by
  induction l1 with
  | nil => rfl
  | cons a l1 ih =>
    cases hp : p a with
    | true => simp [List.find?_cons, hp] at h
    | false =>
      simp only [List.find?_cons, hp] at h
      simp only [List.cons_append, List.find?_cons, hp]
      exact ih h

/-- C5: once `get_peer` has returned `(cid, ah)` for a (handle, identity) pair
— whether from the cache or from a fresh resolution that persisted a `Peers`
row — every later `get_peer` for the same pair against the resulting table
returns the same cached pair immediately: no external resolution call, no
rate-controller interaction, and no change to the table or the controller
state, whatever the clock, controller state, or oracle of the later call. -/
theorem peer_cache_short_circuit (db : List PeerRow) (sid : Int) (fc : FloodCaretaker)
    (now : Int) (res : String → Except PyError (Int × Int)) (name : String) (cid ah : Int)
    (h : (ChannelScraper.get_peer db sid fc now res name).result = .ok (cid, ah)) :
    ∀ (fc2 : FloodCaretaker) (now2 : Int) (res2 : String → Except PyError (Int × Int)),
      ChannelScraper.get_peer (ChannelScraper.get_peer db sid fc now res name).db
          sid fc2 now2 res2 name =
        ⟨.ok (cid, ah), (ChannelScraper.get_peer db sid fc now res name).db,
          fc2, false, false⟩ := by
  intro fc2 now2 res2
  cases hl : lookupPeer db name sid with
  | some p =>
    simp only [ChannelScraper.get_peer, hl] at h ⊢
    injection h with h
    injection h with h1 h2
    subst h1
    subst h2
    rfl
  | none =>
    cases hc : fc.check now with
    | error e => simp [ChannelScraper.get_peer, hl, hc] at h
    | ok pr =>
      obtain ⟨fc3, slept⟩ := pr
      cases hr : res name with
      | error e =>
        cases e <;> simp [ChannelScraper.get_peer, hl, hc, hr] at h
      | ok pair =>
        obtain ⟨c, a⟩ := pair
        simp only [ChannelScraper.get_peer, hl, hc, hr] at h ⊢
        injection h with h
        injection h with h1 h2
        subst cid
        subst ah
        have hfind : lookupPeer (db ++ [⟨sid, name, c, a⟩]) name sid =
            some ⟨sid, name, c, a⟩ := by
          unfold lookupPeer at hl ⊢
          rw [find?_append_of_none _ _ hl]
          simp
        simp only [hfind]

/-- Closed instance of `peer_cache_short_circuit`: starting from an empty
peers table, a resolution that returns `(42, 777)` persists the row, and a
second lookup for the same pair — with a different clock, a fresh controller
and an oracle that would fail — returns the cached pair with no external call
and no rate-controller interaction. -/
theorem peer_cache_short_circuit_witness :
    (ChannelScraper.get_peer [] 1 ⟨0, none, none, none⟩ 0
        (fun _ => .ok (42, 777)) "chan").result = .ok (42, 777) ∧
    ChannelScraper.get_peer
        (ChannelScraper.get_peer [] 1 ⟨0, none, none, none⟩ 0
          (fun _ => .ok (42, 777)) "chan").db
        1 ⟨3, some 2, some 9, some 1⟩ 99 (fun _ => .error .typeError) "chan" =
      ⟨.ok (42, 777),
        (ChannelScraper.get_peer [] 1 ⟨0, none, none, none⟩ 0
          (fun _ => .ok (42, 777)) "chan").db,
        ⟨3, some 2, some 9, some 1⟩, false, false⟩ := by
  refine ⟨rfl, ?_⟩
  exact peer_cache_short_circuit [] 1 ⟨0, none, none, none⟩ 0
    (fun _ => .ok (42, 777)) "chan" 42 777 rfl ⟨3, some 2, some 9, some 1⟩ 99
    (fun _ => .error .typeError)

/-- A reaction variant attached to a message: the tagged union over
`ReactionPaid` / `ReactionEmoji` / `ReactionCustomEmoji`, with `unrecognized`
standing for any other runtime type (which the `isinstance` chain in
`scrape_reactions` silently skips). -/
inductive Reaction : Type
  | paid
  | emoji (emoticon : String)
  | custom (document_id : Int)
  | unrecognized
  deriving DecidableEq, Repr

/-- One `ReactionCount` entry of `post.reactions.results`. -/
structure ReactionCount : Type where
  reaction : Reaction
  count : Int
  deriving DecidableEq, Repr

/-- A message entity as inspected by `scrape_urls`: `MessageEntityTextUrl`
carries its own url, `MessageEntityUrl` is a span into the raw text, anything
else is ignored. -/
inductive MsgEntity : Type
  | textUrl (url : String)
  | plainUrl (offset length : Nat)
  | other
  deriving DecidableEq, Repr

/-- The `from_id` peer of a forward header: only the channel variant has a
`channel_id` attribute; accessing it on any other variant raises, which
`scrape_forward` swallows. -/
inductive FwdFromPeer : Type
  | channel (channel_id : Int)
  | user (user_id : Int)
  deriving DecidableEq, Repr

/-- Forward header (`post.fwd_from`). -/
structure FwdHeader : Type where
  from_id : Option FwdFromPeer
  channel_post : Option Int
  deriving DecidableEq, Repr

/-- Venue attached to a message; its geo point may be absent.  Coordinate
payloads are opaque to every claim, so points are integer pairs here. -/
structure VenueData : Type where
  geo : Option (Int × Int)
  deriving DecidableEq, Repr

/-- The poll summary `scrape_poll` builds: question, answer texts, total
voters. -/
structure PollData : Type where
  question : String
  answers : List String
  total_voters : Option Int
  deriving DecidableEq, Repr

/-- The fields of a Telethon `Message` that the extraction functions in
`PostScraper` read (scrapers.py, lines 305-438). -/
structure Msg : Type where
  id : Int
  grouped_id : Option Int
  date : Int
  post : Option Bool
  silent : Option Bool
  noforwards : Option Bool
  pinned : Option Bool
  fwd_from : Option FwdHeader
  photo : Bool
  document : Bool
  web_preview : Bool
  audio : Bool
  voice : Bool
  video : Bool
  gif : Bool
  views : Option Int
  forwards : Option Int
  replies : Option Int
  reactions : Option (List ReactionCount)
  entities : Option (List MsgEntity)
  raw_text : Option String
  geo : Option (Int × Int)
  venue : Option VenueData
  poll : Option PollData
  via_bot_id : Option Int
  via_business_bot_id : Option Int
  deriving DecidableEq, Repr

/-- Python dict assignment `d[k] = v` on an association list: overwrite the
existing entry or append a new one. -/
def setAssoc {K V : Type} [BEq K] (l : List (K × V)) (k : K) (v : V) : List (K × V) :=
  if l.any (fun p => p.1 == k) then l.map (fun p => if p.1 == k then (k, v) else p)
  else l ++ [(k, v)]

/-- Python slice `s[off : off + len]` (never raises on a string). -/
def pySlice (s : String) (off len : Nat) : String :=
  String.mk ((s.data.drop off).take len)

namespace PostScraper

/-- `PostScraper.scrape_geo` (lines 305-315). -/
def scrape_geo (m : Msg) : Option (Int × Int) :=
  match m.geo with
  | some g => some g
  | none =>
    match m.venue with
    | some v =>
      match v.geo with
      | some g => some g
      | none => none
    | none => none

/-- `PostScraper.scrape_poll` (lines 317-331): the poll summary, or `None`
when the message has no poll. -/
def scrape_poll (m : Msg) : Option PollData :=
  m.poll

/-- Loop body of `scrape_urls`: `MessageEntityTextUrl` appends `ent.url`;
`MessageEntityUrl` slices `post.raw_text`, raising `TypeError` when
`raw_text` is `None` (subscripting `None`); other entities are skipped. -/
def scrapeUrlsGo (raw_text : Option String) :
    List MsgEntity → List String → Except PyError (List String)
  | [], acc => .ok acc
  | .textUrl u :: rest, acc => scrapeUrlsGo raw_text rest (acc ++ [u])
  | .plainUrl off len :: rest, acc =>
    match raw_text with
    | none => .error .typeError
    | some s => scrapeUrlsGo raw_text rest (acc ++ [pySlice s off len])
  | .other :: rest, acc => scrapeUrlsGo raw_text rest acc

/-- `PostScraper.scrape_urls` (lines 333-345). -/
def scrape_urls (m : Msg) : Except PyError (List String) :=
  match m.entities with
  | none => .ok []
  | some ents => scrapeUrlsGo m.raw_text ents []

/-- `PostScraper.scrape_forward` (lines 347-360): source channel id and post
id of a forwarded message; any attribute error inside the `try` yields
`(None, None)`. -/
def scrape_forward (m : Msg) : Option Int × Option Int :=
  match m.fwd_from with
  | some h =>
    match h.from_id with
    | some (.channel cid) => (some cid, h.channel_post)
    | _ => (none, none)
  | none => (none, none)

/-- `PostScraper.scrape_reactions` (lines 362-387): fold over the reaction
counters, dispatching on the variant; unrecognized variants fall through the
`isinstance` chain and are skipped. -/
def scrape_reactions (m : Msg) : Int × List (String × Int) × List (Int × Int) :=
  match m.reactions with
  | none => (0, [], [])
  | some rcs =>
    rcs.foldl
      (fun acc rc =>
        match rc.reaction with
        | .paid => (rc.count, acc.2.1, acc.2.2)
        | .emoji e => (acc.1, setAssoc acc.2.1 e rc.count, acc.2.2)
        | .custom i => (acc.1, acc.2.1, setAssoc acc.2.2 i rc.count)
        | .unrecognized => acc)
      (0, [], [])

end PostScraper

/-- The `posts_metadata` dict built by `scrape_post` (natural key plus mutable
columns). -/
structure MetaRow : Type where
  channel_id : Int
  post_id : Int
  group_id : Option Int
  post_date : Int
  scrape_date : Int
  deriving DecidableEq, Repr

/-- Natural key `(channel_id, post_id)` of a metadata row (unique constraint
`uq_channel_post`). -/
def MetaRow.key (r : MetaRow) : Int × Int :=
  (r.channel_id, r.post_id)

/-- The mutable columns of `posts_metadata` overwritten on conflict
(`group_id`, `post_date`, `scrape_date`). -/
structure MetaMut : Type where
  group_id : Option Int
  post_date : Int
  scrape_date : Int
  deriving DecidableEq, Repr

/-- Mutable-column projection of a metadata row. -/
def MetaRow.mutCols (r : MetaRow) : MetaMut :=
  ⟨r.group_id, r.post_date, r.scrape_date⟩

/-- The `posts_flags` dict built by `scrape_post`. -/
structure FlagsRow : Type where
  is_post : Option Bool
  silent : Option Bool
  noforwards : Option Bool
  pinned : Option Bool
  fwd_from_flag : Bool
  photo : Bool
  document : Bool
  web : Bool
  audio : Bool
  voice : Bool
  video : Bool
  gif : Bool
  deriving DecidableEq, Repr

/-- The `posts_metrics` dict built by `scrape_post`. -/
structure MetricsRow : Type where
  views : Option Int
  forwards : Option Int
  comments : Option Int
  paid_reactions : Int
  standard_reactions : List (String × Int)
  custom_reactions : List (Int × Int)
  deriving DecidableEq, Repr

/-- The `posts_content` dict built by `scrape_post`. -/
structure ContentRow : Type where
  raw_text : Option String
  urls : List String
  geo : Option (Int × Int)
  poll : Option PollData
  via_bot_id : Option Int
  via_business_bot_id : Option Int
  deriving DecidableEq, Repr

/-- The `forwards` dict built by `scrape_post`. -/
structure ForwardRow : Type where
  from_ch_id : Option Int
  from_post_id : Option Int
  deriving DecidableEq, Repr

/-- The full dictionary `scrape_post` returns for one message. -/
structure PostData : Type where
  posts_metadata : MetaRow
  posts_flags : FlagsRow
  posts_metrics : MetricsRow
  posts_content : ContentRow
  forwards : ForwardRow
  deriving DecidableEq, Repr

namespace PostScraper

/-- `PostScraper.scrape_post` (lines 389-438): assemble the five row dicts for
one message; the only fallible step is `scrape_urls` (see `scrapeUrlsGo`),
and any error makes the whole post's extraction fail. -/
def scrape_post (channel_id : Int) (scrape_date : Int) (m : Msg) :
    Except PyError PostData :=
  let r := scrape_reactions m
  match scrape_urls m with
  | .error e => .error e
  | .ok urls =>
    .ok
      { posts_metadata := ⟨channel_id, m.id, m.grouped_id, m.date, scrape_date⟩
        posts_flags := ⟨m.post, m.silent, m.noforwards, m.pinned, m.fwd_from.isSome,
          m.photo, m.document, m.web_preview, m.audio, m.voice, m.video, m.gif⟩
        posts_metrics := ⟨m.views, m.forwards, m.replies, r.1, r.2.1, r.2.2⟩
        posts_content := ⟨m.raw_text, urls, scrape_geo m, scrape_poll m,
          m.via_bot_id, m.via_business_bot_id⟩
        forwards := ⟨(scrape_forward m).1, (scrape_forward m).2⟩ }

end PostScraper

/-- Values of the mutable columns of one `similars` row (refreshed on
conflict). -/
structure SimVal : Type where
  similar_channel_name : Option String
  similar_channel_title : String
  deriving DecidableEq, Repr

/-- One chat descriptor from `GetChannelRecommendationsRequest` as read by
`scrape_similar_channels`. -/
structure SimChat : Type where
  id : Int
  username : Option String
  title : String
  deriving DecidableEq, Repr

/-- The relational store, one field per table touched by the batch writes,
each a map from the table's conflict key to the row's mutable columns.
`posts_metadata` also tracks the auto-generated surrogate id and `next_id`
models the id sequence. -/
@[ext]
structure Store : Type where
  posts_metadata : Int × Int → Option (Nat × MetaMut)
  posts_flags : Nat → Option FlagsRow
  posts_metrics : Nat → Option MetricsRow
  posts_content : Nat → Option ContentRow
  forwards : Nat → Option ForwardRow
  similars : Int × Int → Option SimVal
  next_id : Nat

/-- The store with no rows. -/
def emptyStore : Store :=
  ⟨fun _ => none, fun _ => none, fun _ => none, fun _ => none, fun _ => none,
    fun _ => none, 0⟩

/-- Upsert with overwrite, one keyed row at a time (the row list of one
`INSERT ... ON CONFLICT DO UPDATE` statement is written left to right). -/
def writeTable {K V : Type} [DecidableEq K] (t : K → Option V) (l : List (K × V)) :
    K → Option V :=
  l.foldl (fun acc kv => Function.update acc kv.1 (some kv.2)) t

/-- One row of an `ON CONFLICT DO NOTHING` statement: written only when its
key is still absent. -/
def stepDN {K V : Type} [DecidableEq K] (acc : K → Option V) (kv : K × V) :
    K → Option V :=
  match acc kv.1 with
  | some _ => acc
  | none => Function.update acc kv.1 (some kv.2)

/-- Upsert with `ON CONFLICT DO NOTHING`: a row is written only when its key
is still absent. -/
def writeTableDN {K V : Type} [DecidableEq K] (t : K → Option V) (l : List (K × V)) :
    K → Option V :=
  l.foldl stepDN t

/-- Upsert of one `posts_metadata` row keyed by `uq_channel_post`, returning
the surrogate id (`RETURNING PostsMetadata.id`): on conflict the mutable
columns are overwritten and the existing id is returned, otherwise the next
sequence value is allocated. -/
def upsertMetaOne (s : Store) (r : MetaRow) : Store × Nat :=
  match s.posts_metadata r.key with
  | some p =>
    ({ s with posts_metadata := Function.update s.posts_metadata r.key (some (p.1, r.mutCols)) },
      p.1)
  | none =>
    ({ s with
        posts_metadata := Function.update s.posts_metadata r.key (some (s.next_id, r.mutCols)),
        next_id := s.next_id + 1 },
      s.next_id)

/-- The metadata upsert over the whole batch, returning the ids in row order
(with distinct natural keys this is exactly the `id_map` lookup sequence of
the source, lines 468-486). -/
def upsertMetas (s : Store) : List MetaRow → Store × List Nat
  | [] => (s, [])
  | r :: rest =>
    let t := upsertMetaOne s r
    let u := upsertMetas t.1 rest
    (u.1, t.2 :: u.2)

/-- Python truthiness of a nullable string (`None` and `""` are falsy). -/
def truthyStr : Option String → Bool
  | none => false
  | some s => !s.isEmpty

/-- Python truthiness of a nullable integer (`None` and `0` are falsy). -/
def truthyInt : Option Int → Bool
  | none => false
  | some n => n != 0

/-- Truthiness filter applied to a content row before the `posts_content`
upsert (lines 515-518): `any(list(content.values())[:-1])` after the id was
appended, i.e. any of the six content fields truthy.  A present geo pair or
poll dict is always truthy. -/
def contentKeep (c : ContentRow) : Bool :=
  truthyStr c.raw_text || !c.urls.isEmpty || c.geo.isSome || c.poll.isSome ||
    truthyInt c.via_bot_id || truthyInt c.via_business_bot_id

/-- Truthiness filter applied to a forwards row before the `forwards` upsert
(lines 532-535): any of `from_ch_id`, `from_post_id` truthy. -/
def fwdKeep (f : ForwardRow) : Bool :=
  truthyInt f.from_ch_id || truthyInt f.from_post_id

/-- The write phase of `scrape_posts_batch` (lines 465-539) on an extracted
batch: metadata upsert returning ids, then flags and metrics upserted per id,
then the sparse content rows, then the forwards rows with conflicts ignored.
An empty extracted batch performs no write at all (`if db_posts_metadata:`). -/
def upsertBatchCore (s : Store) (datas : List PostData) : Store :=
  if datas.isEmpty then s
  else
    let mp := upsertMetas s (datas.map PostData.posts_metadata)
    let s1 := mp.1
    let ids := mp.2
    let flagsL := ids.zip (datas.map PostData.posts_flags)
    let metricsL := ids.zip (datas.map PostData.posts_metrics)
    let contentL := (ids.zip (datas.map PostData.posts_content)).filter fun p => contentKeep p.2
    let fwdL := (ids.zip (datas.map PostData.forwards)).filter fun p => fwdKeep p.2
    { s1 with
        posts_flags := writeTable s1.posts_flags flagsL
        posts_metrics := writeTable s1.posts_metrics metricsL
        posts_content := writeTable s1.posts_content contentL
        forwards := writeTableDN s1.forwards fwdL }

/-- Errors raised by the store itself. -/
inductive DBError : Type
  | cardinalityViolation
  deriving DecidableEq, Repr

/-- The natural keys of an extracted batch. -/
def metaKeys (datas : List PostData) : List (Int × Int) :=
  datas.map fun d => d.posts_metadata.key

/-- One multi-row upsert statement: the store rejects a batch that touches
the same `uq_channel_post` key twice (`ON CONFLICT DO UPDATE` cannot affect a
row a second time); otherwise the writes of `upsertBatchCore` happen and the
row count of the metadata upsert is reported (the count logged at line 541). -/
def upsertBatch (s : Store) (datas : List PostData) : Except DBError (Store × Nat) :=
  if (metaKeys datas).Nodup then .ok (upsertBatchCore s datas, datas.length)
  else .error .cardinalityViolation

namespace PostScraper

/-- The per-post extraction loop of `scrape_posts_batch` (lines 451-463):
posts whose extraction raises are skipped, the rest are kept in order. -/
def extractBatch (channel_id : Int) (scrape_date : Int) (posts : List Msg) : List PostData :=
  posts.filterMap fun p => (scrape_post channel_id scrape_date p).toOption

/-- `PostScraper.scrape_posts_batch` (lines 440-541): extract every post,
dropping the ones that raise, then bulk-upsert the survivors. -/
def scrape_posts_batch (s : Store) (channel_id : Int) (scrape_date : Int)
    (posts : List Msg) : Except DBError (Store × Nat) :=
  upsertBatch s (extractBatch channel_id scrape_date posts)

end PostScraper

namespace ChannelScraper

/-- `ChannelScraper.scrape_similar_channels` (scrapers.py, lines 152-183):
with a non-empty recommendation list, bulk-upsert `similars` rows keyed by
`(base_channel_id, similar_channel_id)`, refreshing name and title on
conflict; the store rejects duplicate keys within one statement. -/
def scrape_similar_channels (s : Store) (base_channel_id : Int) (chats : List SimChat) :
    Except DBError Store :=
  if chats.isEmpty then .ok s
  else if (chats.map SimChat.id).Nodup then
    .ok { s with
      similars := writeTable s.similars
        (chats.map fun c => ((base_channel_id, c.id), SimVal.mk c.username c.title)) }
  else .error .cardinalityViolation

end ChannelScraper

section TableLemmas

variable {K V : Type} [DecidableEq K]

/-- Last value written for key `k` by a row list (later rows win). -/
def lastWrite (l : List (K × V)) (k : K) : Option V :=
  l.foldl (fun acc kv => if k = kv.1 then some kv.2 else acc) none

theorem lastWrite_foldl (l : List (K × V)) (k : K) (acc : Option V) :
    l.foldl (fun a kv => if k = kv.1 then some kv.2 else a) acc =
      match lastWrite l k with
      | some v => some v
      | none => acc := by
  induction l generalizing acc with
  | nil => simp [lastWrite]
  | cons kv l ih =>
    simp only [lastWrite, List.foldl_cons] at ih ⊢
    rw [ih, ih (if k = kv.1 then some kv.2 else none)]
    cases hl : l.foldl (fun a kv => if k = kv.1 then some kv.2 else a) none <;>
      by_cases hk : k = kv.1 <;> simp [hk]

theorem writeTable_apply (l : List (K × V)) (t : K → Option V) (k : K) :
    writeTable t l k =
      match lastWrite l k with
      | some v => some v
      | none => t k := by
  induction l generalizing t with
  | nil => simp [writeTable, lastWrite]
  | cons kv l ih =>
    simp only [writeTable, List.foldl_cons] at ih ⊢
    rw [ih]
    have : lastWrite (kv :: l) k =
        match lastWrite l k with
        | some v => some v
        | none => if k = kv.1 then some kv.2 else none := by
      simp only [lastWrite, List.foldl_cons]
      exact lastWrite_foldl l k _
    rw [this]
    cases hl : lastWrite l k <;> by_cases hk : k = kv.1 <;>
      simp [hl, hk, Function.update_apply]

/-- Re-running one overwrite upsert statement leaves the table unchanged. -/
theorem writeTable_idem (t : K → Option V) (l : List (K × V)) :
    writeTable (writeTable t l) l = writeTable t l := by
  funext k
  rw [writeTable_apply, writeTable_apply]
  cases hl : lastWrite l k <;> simp [hl]

/-- A key already present survives an `ON CONFLICT DO NOTHING` write list with
its value intact. -/
theorem writeTableDN_mono (l : List (K × V)) (t : K → Option V) (k : K) (v : V)
    (h : t k = some v) : writeTableDN t l k = some v := by
  induction l generalizing t with
  | nil => exact h
  | cons kv l ih =>
    simp only [writeTableDN, List.foldl_cons] at ih ⊢
    refine ih _ ?_
    simp only [stepDN]
    cases ht : t kv.1 with
    | some w => simpa [ht] using h
    | none =>
      by_cases hk : k = kv.1
      · rw [hk] at h
        rw [ht] at h
        cases h
      · simp [ht, Function.update_apply, hk, h]

/-- Re-running one do-nothing upsert statement leaves the table unchanged. -/
theorem writeTableDN_idem (l : List (K × V)) (t : K → Option V) :
    writeTableDN (writeTableDN t l) l = writeTableDN t l := by
  induction l generalizing t with
  | nil => rfl
  | cons kv l ih =>
    simp only [writeTableDN, List.foldl_cons] at ih ⊢
    have hdef : ∃ w, (stepDN t kv) kv.1 = some w := by
      simp only [stepDN]
      cases ht : t kv.1 with
      | some w => exact ⟨w, ht⟩
      | none => exact ⟨kv.2, by simp [Function.update_same]⟩
    obtain ⟨w, hw⟩ := hdef
    have h0 : (List.foldl stepDN (stepDN t kv) l) kv.1 = some w := by
      have := writeTableDN_mono l (stepDN t kv) kv.1 w hw
      simpa [writeTableDN] using this
    have hstep : stepDN (List.foldl stepDN (stepDN t kv) l) kv =
        List.foldl stepDN (stepDN t kv) l := by
      show (match (List.foldl stepDN (stepDN t kv) l) kv.1 with
        | some _ => List.foldl stepDN (stepDN t kv) l
        | none =>
          Function.update (List.foldl stepDN (stepDN t kv) l) kv.1 (some kv.2)) =
        List.foldl stepDN (stepDN t kv) l
      rw [h0]
    rw [hstep]
    exact ih (stepDN t kv)

end TableLemmas

theorem upsertMetaOne_key (s : Store) (r : MetaRow) :
    ((upsertMetaOne s r).1).posts_metadata r.key =
      some ((upsertMetaOne s r).2, r.mutCols) := by
  unfold upsertMetaOne
  cases h : s.posts_metadata r.key <;> simp [h, Function.update_same]

theorem upsertMetaOne_ne (s : Store) (r : MetaRow) (k : Int × Int) (h : k ≠ r.key) :
    ((upsertMetaOne s r).1).posts_metadata k = s.posts_metadata k := by
  unfold upsertMetaOne
  cases hm : s.posts_metadata r.key <;> simp [Function.update_apply, h]

theorem upsertMetaOne_fix (s : Store) (r : MetaRow) (i : Nat)
    (h : s.posts_metadata r.key = some (i, r.mutCols)) : upsertMetaOne s r = (s, i) := by
  unfold upsertMetaOne
  rw [h]
  show ({ s with
      posts_metadata := Function.update s.posts_metadata r.key (some (i, r.mutCols)) }, i) =
    (s, i)
  have hupd : Function.update s.posts_metadata r.key (some (i, r.mutCols)) =
      s.posts_metadata := by
    rw [← h]
    exact Function.update_eq_self r.key s.posts_metadata
  rw [hupd]

theorem upsertMetas_ne (rs : List MetaRow) (s : Store) (k : Int × Int)
    (h : ∀ r ∈ rs, k ≠ r.key) :
    ((upsertMetas s rs).1).posts_metadata k = s.posts_metadata k := by
  induction rs generalizing s with
  | nil => rfl
  | cons r rest ih =>
    simp only [upsertMetas]
    rw [ih (upsertMetaOne s r).1 (fun r' hr' => h r' (List.mem_cons_of_mem _ hr'))]
    exact upsertMetaOne_ne s r k (h r (List.mem_cons_self _ _))

theorem upsertMetas_estab (rs : List MetaRow) (s : Store)
    (h : (rs.map MetaRow.key).Nodup) :
    List.Forall₂
      (fun (r : MetaRow) (i : Nat) =>
        ((upsertMetas s rs).1).posts_metadata r.key = some (i, r.mutCols))
      rs (upsertMetas s rs).2 := by
  induction rs generalizing s with
  | nil => exact List.Forall₂.nil
  | cons r rest ih =>
    simp only [List.map_cons, List.nodup_cons] at h
    obtain ⟨hnot, hnd⟩ := h
    simp only [upsertMetas]
    constructor
    · rw [upsertMetas_ne rest (upsertMetaOne s r).1 r.key
        (fun r' hr' heq => hnot (heq ▸ List.mem_map_of_mem _ hr'))]
      exact upsertMetaOne_key s r
    · exact ih (upsertMetaOne s r).1 hnd

theorem upsertMetas_fix (rs : List MetaRow) (ids : List Nat) (s2 : Store)
    (h : List.Forall₂ (fun r i => s2.posts_metadata r.key = some (i, r.mutCols)) rs ids) :
    upsertMetas s2 rs = (s2, ids) := by
  induction h with
  | nil => rfl
  | cons hh ht ih =>
    simp only [upsertMetas]
    rw [upsertMetaOne_fix _ _ _ hh, ih]

theorem upsertMetas_fix_of_meta_eq (rs : List MetaRow) (s u : Store)
    (hmeta : u.posts_metadata = ((upsertMetas s rs).1).posts_metadata)
    (h : (rs.map MetaRow.key).Nodup) :
    upsertMetas u rs = (u, (upsertMetas s rs).2) := by
  apply upsertMetas_fix
  refine (upsertMetas_estab rs s h).imp ?_
  intro r i hi
  rw [hmeta]
  exact hi

/-- Re-running the whole write phase of one batch on its own output store
reproduces that store exactly. -/
theorem upsertBatchCore_idem (s : Store) (datas : List PostData)
    (h : (metaKeys datas).Nodup) :
    upsertBatchCore (upsertBatchCore s datas) datas = upsertBatchCore s datas := by
  cases he : datas.isEmpty with
  | true => simp [upsertBatchCore, he]
  | false =>
    have hkeys : ((datas.map PostData.posts_metadata).map MetaRow.key).Nodup := by
      simpa [metaKeys, List.map_map, Function.comp] using h
    simp only [upsertBatchCore, he, Bool.false_eq_true, if_false]
    set rs := datas.map PostData.posts_metadata with hrs
    set s1 := (upsertMetas s rs).1 with hs1
    set ids := (upsertMetas s rs).2 with hids
    set S2 : Store :=
      { s1 with
          posts_flags := writeTable s1.posts_flags (ids.zip (datas.map PostData.posts_flags))
          posts_metrics :=
            writeTable s1.posts_metrics (ids.zip (datas.map PostData.posts_metrics))
          posts_content :=
            writeTable s1.posts_content
              ((ids.zip (datas.map PostData.posts_content)).filter fun p => contentKeep p.2)
          forwards :=
            writeTableDN s1.forwards
              ((ids.zip (datas.map PostData.forwards)).filter fun p => fwdKeep p.2) }
      with hS2
    have hfix : upsertMetas S2 rs = (S2, ids) :=
      upsertMetas_fix_of_meta_eq rs s S2 rfl hkeys
    rw [hfix]
    have hf : writeTable S2.posts_flags (ids.zip (datas.map PostData.posts_flags)) =
        S2.posts_flags :=
      writeTable_idem s1.posts_flags (ids.zip (datas.map PostData.posts_flags))
    have hm : writeTable S2.posts_metrics (ids.zip (datas.map PostData.posts_metrics)) =
        S2.posts_metrics :=
      writeTable_idem s1.posts_metrics (ids.zip (datas.map PostData.posts_metrics))
    have hc2 : writeTable S2.posts_content
        ((ids.zip (datas.map PostData.posts_content)).filter fun p => contentKeep p.2) =
        S2.posts_content :=
      writeTable_idem s1.posts_content
        ((ids.zip (datas.map PostData.posts_content)).filter fun p => contentKeep p.2)
    have hfw : writeTableDN S2.forwards
        ((ids.zip (datas.map PostData.forwards)).filter fun p => fwdKeep p.2) =
        S2.forwards :=
      writeTableDN_idem ((ids.zip (datas.map PostData.forwards)).filter fun p => fwdKeep p.2)
        s1.forwards
    rw [hf, hm, hc2, hfw]

/-- Whether a fallible computation succeeded. -/
def exOk {E A : Type} : Except E A → Bool
  | .ok _ => true
  | .error _ => false

/-- A well-formed message with id and date `i` and no fallible payload. -/
def plainMsg (i : Int) : Msg :=
  { id := i, grouped_id := none, date := i, post := some true, silent := some false,
    noforwards := some false, pinned := some false, fwd_from := none,
    photo := false, document := false, web_preview := false, audio := false,
    voice := false, video := false, gif := false, views := some 10,
    forwards := some 0, replies := none, reactions := none, entities := none,
    raw_text := some "hello", geo := none, venue := none, poll := none,
    via_bot_id := none, via_business_bot_id := none }

/-- A message whose extraction raises: it has a plain url entity but its
`raw_text` is `None`, so `scrape_urls` subscripts `None` (`TypeError`). -/
def badMsg : Msg :=
  { plainMsg 4 with raw_text := none, entities := some [.plainUrl 0 1] }

/-- A batch of 10 messages of which exactly one (`badMsg`) fails
extraction. -/
def batch10 : List Msg :=
  [plainMsg 1, plainMsg 2, plainMsg 3, badMsg, plainMsg 5, plainMsg 6, plainMsg 7,
    plainMsg 8, plainMsg 9, plainMsg 10]

/-- C7: a post whose extraction raises is dropped from the batch alone —
extracting a batch gives the same rows as extracting only its successfully
extracting posts, and the number of rows upserted (and logged) equals the
number of posts whose extraction succeeds.  In particular the concrete batch
of 10 posts with exactly 1 failing extraction upserts exactly 9 posts and the
batch write succeeds rather than failing. -/
theorem partial_batch_resilience (channel_id scrape_date : Int) (posts : List Msg) :
    PostScraper.extractBatch channel_id scrape_date
        (posts.filter fun p => exOk (PostScraper.scrape_post channel_id scrape_date p)) =
      PostScraper.extractBatch channel_id scrape_date posts ∧
    (PostScraper.extractBatch channel_id scrape_date posts).length =
      posts.countP (fun p => exOk (PostScraper.scrape_post channel_id scrape_date p)) ∧
    (PostScraper.scrape_posts_batch emptyStore 1 0 batch10).map Prod.snd = Except.ok 9 := by
  refine ⟨?_, ?_, by rfl⟩
  · induction posts with
    | nil => rfl
    | cons p ps ih =>
      cases hpost : PostScraper.scrape_post channel_id scrape_date p with
      | ok d =>
        simpa [PostScraper.extractBatch, List.filter_cons, List.filterMap_cons, hpost, exOk,
          Except.toOption] using ih
      | error e =>
        simpa [PostScraper.extractBatch, List.filter_cons, List.filterMap_cons, hpost, exOk,
          Except.toOption] using ih
  · induction posts with
    | nil => rfl
    | cons p ps ih =>
      cases hpost : PostScraper.scrape_post channel_id scrape_date p with
      | ok d =>
        simpa [PostScraper.extractBatch, List.filterMap_cons, List.countP_cons, hpost, exOk,
          Except.toOption] using ih
      | error e =>
        simpa [PostScraper.extractBatch, List.filterMap_cons, List.countP_cons, hpost, exOk,
          Except.toOption] using ih

/-- C8: processing the identical extracted batch twice leaves the store
exactly as processing it once — every write is an upsert keyed by its natural
key, so the second pass updates each row to the values it already has and
allocates no new surrogate ids — and likewise re-upserting one similar-channel
list leaves the `similars` edges unchanged (no duplicate rows or edges). -/
theorem batch_upsert_idempotent (s : Store) (channel_id scrape_date : Int)
    (posts : List Msg) (base : Int) (chats : List SimChat)
    (h : (metaKeys (PostScraper.extractBatch channel_id scrape_date posts)).Nodup)
    (hc : (chats.map SimChat.id).Nodup) :
    (∃ s1 n,
      PostScraper.scrape_posts_batch s channel_id scrape_date posts = .ok (s1, n) ∧
      PostScraper.scrape_posts_batch s1 channel_id scrape_date posts = .ok (s1, n)) ∧
    (∃ s2,
      ChannelScraper.scrape_similar_channels s base chats = .ok s2 ∧
      ChannelScraper.scrape_similar_channels s2 base chats = .ok s2) := by
  constructor
  · refine ⟨upsertBatchCore s (PostScraper.extractBatch channel_id scrape_date posts),
      (PostScraper.extractBatch channel_id scrape_date posts).length, ?_, ?_⟩
    · simp [PostScraper.scrape_posts_batch, upsertBatch, h]
    · simp [PostScraper.scrape_posts_batch, upsertBatch, h, upsertBatchCore_idem s _ h]
  · cases chats with
    | nil => exact ⟨s, rfl, rfl⟩
    | cons c cs =>
      refine ⟨{ s with
          similars := writeTable s.similars
            ((c :: cs).map fun c => ((base, c.id), SimVal.mk c.username c.title)) }, ?_, ?_⟩
      · simp only [ChannelScraper.scrape_similar_channels, List.isEmpty_cons,
          Bool.false_eq_true, if_false, if_pos hc]
      · have hidem := writeTable_idem s.similars
          ((c :: cs).map fun ch => ((base, ch.id), SimVal.mk ch.username ch.title))
        simp only [ChannelScraper.scrape_similar_channels, List.isEmpty_cons,
          Bool.false_eq_true, if_false, if_pos hc]
        rw [hidem]

/-- Closed instance of `batch_upsert_idempotent`: two plain posts and one
similar channel, starting from the empty store. -/
theorem batch_upsert_idempotent_witness :
    (metaKeys (PostScraper.extractBatch 1 0 [plainMsg 1, plainMsg 2])).Nodup ∧
    (([⟨5, some "a", "title"⟩] : List SimChat).map SimChat.id).Nodup ∧
    ((∃ s1 n,
      PostScraper.scrape_posts_batch emptyStore 1 0 [plainMsg 1, plainMsg 2] = .ok (s1, n) ∧
      PostScraper.scrape_posts_batch s1 1 0 [plainMsg 1, plainMsg 2] = .ok (s1, n)) ∧
    (∃ s2,
      ChannelScraper.scrape_similar_channels emptyStore 9 [⟨5, some "a", "title"⟩] = .ok s2 ∧
      ChannelScraper.scrape_similar_channels s2 9 [⟨5, some "a", "title"⟩] = .ok s2)) :=
  ⟨by decide, by decide,
    batch_upsert_idempotent emptyStore 1 0 [plainMsg 1, plainMsg 2] 9
      [⟨5, some "a", "title"⟩] (by decide) (by decide)⟩

/-- One `Runs` row (scrapers.py, lines 185-205): appended after every
completed run, never read back anywhere in the scraper. -/
structure RunRecord : Type where
  channel_id : Int
  from_date : Int
  scrape_date : Int
  posts_scraped : Nat
  exec_time : Int
  deriving DecidableEq, Repr

namespace PostScraper

/-- The iteration of `PostScraper.run` (lines 543-580): `iter_messages`
without `reverse=True` yields the channel history newest-first, at most
`limit` messages; the loop appends each post to the current batch and stops at
the first post with `post.date < from_date`.  This is the sequence of posts
processed, in processing order (batches of 200 are flushed to
`scrape_posts_batch` along the way; `posts_scraped` is its length). -/
def runProcessed (history : List Msg) (from_date : Int) (limit : Nat) : List Msg :=
  (history.take limit).takeWhile fun p => !decide (p.date < from_date)

/-- The `posts_scraped` count `run` returns. -/
def runCount (history : List Msg) (from_date : Int) (limit : Nat) : Nat :=
  (runProcessed history from_date limit).length

end PostScraper

namespace ChannelScraper

/-- The post phase of `ChannelScraper.scrape` (lines 240-247): call
`PostScraper.run` with the *requested* `from_date` (the only prior-run lookup,
lines 227-235, is commented out in the source, and it was a skip-channel
check, not a lower-bound computation) and with the default `limit = 20000`,
then append one `Runs` row recording the requested bound and the count. -/
def scrapePostsPhase (ledger : List RunRecord) (channel_id : Int) (history : List Msg)
    (from_date : Int) (scrape_date : Int) (exec_time : Int) :
    List Msg × List RunRecord :=
  let processed := PostScraper.runProcessed history from_date 20000
  (processed,
    ledger ++ [⟨channel_id, from_date, scrape_date, processed.length, exec_time⟩])

end ChannelScraper

/-- C1 counterexample: the Run Ledger holds a prior run for channel 1 with
lower bound D1 = 10 that scraped up to D2 = 20; a new request with
`from_date = 15` inside the covered window re-fetches the covered post dated
17 — the effective lower bound is the requested 15, not D2 = 20, so
already-covered history is fetched again, contradicting the claim. -/
theorem covered_window_refetched_counterexample :
    (ChannelScraper.scrapePostsPhase [⟨1, 10, 20, 5, 1⟩] 1 [plainMsg 17] 15 30 1).1 =
      [plainMsg 17] ∧
    (10:Int) ≤ 15 ∧ (15:Int) ≤ 20 ∧ (plainMsg 17).date < 20 := by
  exact ⟨rfl, by decide, by decide, by decide⟩

/-- C1 amended: scraping never consults the Run Ledger.  The effective lower
bound is always exactly the requested `from_date` — so a backfill request does
start from its `from_date` as the claim says, but a request inside an
already-covered window re-fetches the covered history instead of starting at
the covered upper bound — and the ledger is append-only: a run only adds one
`RunRecord` carrying the requested bound and the processed count. -/
theorem effective_lower_bound_is_requested (ledger ledger2 : List RunRecord)
    (channel_id : Int) (history : List Msg) (from_date scrape_date exec_time : Int) :
    (ChannelScraper.scrapePostsPhase ledger channel_id history from_date scrape_date
        exec_time).1 =
      (ChannelScraper.scrapePostsPhase ledger2 channel_id history from_date scrape_date
        exec_time).1 ∧
    (ChannelScraper.scrapePostsPhase ledger channel_id history from_date scrape_date
        exec_time).1 = PostScraper.runProcessed history from_date 20000 ∧
    (ChannelScraper.scrapePostsPhase ledger channel_id history from_date scrape_date
        exec_time).2 =
      ledger ++ [⟨channel_id, from_date, scrape_date,
        (PostScraper.runProcessed history from_date 20000).length, exec_time⟩] := by
  exact ⟨rfl, rfl, rfl⟩

/-- C2 counterexample: with the API delivering posts dated 10 then 5 (newest
first, as `iter_messages` does without `reverse=True`) and lower bound 0, the
processed stream is `[10, 5]` — decreasing, not the non-decreasing
(chronological) order the claim states. -/
theorem stream_order_not_ascending_counterexample :
    PostScraper.runProcessed [plainMsg 10, plainMsg 5] 0 20000 =
      [plainMsg 10, plainMsg 5] ∧
    ¬ List.Sorted (· ≤ ·)
        ((PostScraper.runProcessed [plainMsg 10, plainMsg 5] 0 20000).map Msg.date) := by
  exact ⟨rfl, by decide⟩

/-- On a history whose dates are non-increasing, stopping at the first post
older than the bound collects exactly the posts not older than the bound. -/
theorem takeWhile_date_eq_filter (from_date : Int) :
    ∀ (l : List Msg), List.Sorted (· ≥ ·) (l.map Msg.date) →
      l.takeWhile (fun p => !decide (p.date < from_date)) =
        l.filter (fun p => decide (from_date ≤ p.date)) := by
  intro l
  induction l with
  | nil => intro _; rfl
  | cons m l ih =>
    intro hs
    rw [List.map_cons, List.sorted_cons] at hs
    obtain ⟨hall, htl⟩ := hs
    by_cases hm : m.date < from_date
    · have hnil : l.filter (fun p => decide (from_date ≤ p.date)) = [] := by
        rw [List.filter_eq_nil_iff]
        intro p hp
        have hd : m.date ≥ p.date := hall p.date (List.mem_map_of_mem Msg.date hp)
        simp [not_le.mpr (lt_of_le_of_lt hd hm)]
      simp [List.takeWhile_cons, List.filter_cons, hm, not_le.mpr hm, hnil]
    · simp [List.takeWhile_cons, List.filter_cons, hm, not_lt.mp hm, ih htl]

/-- C2 amended: the post scraper requests and processes the channel's posts in
the order the API delivers them — newest first, i.e. non-increasing publish
time — starting from the present, and terminates at the first post older than
the effective lower bound; relying on that descending order, the processed
posts are exactly those of the fetched window that are not older than the
bound. -/
theorem stream_order_descending (history : List Msg) (from_date : Int) (limit : Nat)
    (h : List.Sorted (· ≥ ·) (history.map Msg.date)) :
    PostScraper.runProcessed history from_date limit =
      (history.take limit).filter (fun p => decide (from_date ≤ p.date)) ∧
    List.Sorted (· ≥ ·)
      ((PostScraper.runProcessed history from_date limit).map Msg.date) := by
  have htake : List.Sorted (· ≥ ·) ((history.take limit).map Msg.date) :=
    List.Pairwise.sublist (List.Sublist.map Msg.date (List.take_sublist limit history)) h
  constructor
  · exact takeWhile_date_eq_filter from_date (history.take limit) htake
  · exact List.Pairwise.sublist
      (List.Sublist.map Msg.date (List.takeWhile_sublist _)) htake

/-- Closed instance of `stream_order_descending`: a three-post descending
history with bound 5 and limit 2 processes exactly the fetched posts dated
at least 5, in descending order. -/
theorem stream_order_descending_witness :
    List.Sorted (· ≥ ·) (([plainMsg 9, plainMsg 7, plainMsg 3].map Msg.date)) ∧
    (PostScraper.runProcessed [plainMsg 9, plainMsg 7, plainMsg 3] 5 2 =
      ([plainMsg 9, plainMsg 7, plainMsg 3].take 2).filter
        (fun p => decide ((5:Int) ≤ p.date)) ∧
    List.Sorted (· ≥ ·)
      ((PostScraper.runProcessed [plainMsg 9, plainMsg 7, plainMsg 3] 5 2).map Msg.date)) :=
  ⟨by decide, stream_order_descending [plainMsg 9, plainMsg 7, plainMsg 3] 5 2 (by decide)⟩

/-- The exception classes distinguished by the `try/except` dispatch of
`ChannelScraper.scrape` (scrapers.py, lines 255-290), plus `unrecognizedError`
for anything reaching the final `except Exception` clause. -/
inductive ScrapeErr : Type
  | sqlalchemyError
  | authKeyPermEmpty
  | sessionPasswordNeeded
  | timeoutError
  | authKeyDuplicated
  | peerIdInvalid
  | floodWait
  | usernameInvalid
  | usernameNotOccupied
  | valueError
  | channelInvalid
  | channelPrivate
  | channelPublicGroupNa
  | chatIdInvalid
  | assertionError
  | unrecognizedError
  deriving DecidableEq, Repr

namespace ChannelScraper

/-- The acknowledge flag `ChannelScraper.scrape` returns for a given body
outcome (lines 253-290): `True` on success, `False` for the scraper-bound
tuple (first `except`), `True` for the task-bound tuple (second `except`),
`False` for anything else (final `except Exception`). -/
def ackOf : Except ScrapeErr Unit → Bool
  | .ok _ => true
  | .error .sqlalchemyError => false
  | .error .authKeyPermEmpty => false
  | .error .sessionPasswordNeeded => false
  | .error .timeoutError => false
  | .error .authKeyDuplicated => false
  | .error .peerIdInvalid => false
  | .error .floodWait => false
  | .error .usernameInvalid => true
  | .error .usernameNotOccupied => true
  | .error .valueError => true
  | .error .channelInvalid => true
  | .error .channelPrivate => true
  | .error .channelPublicGroupNa => true
  | .error .chatIdInvalid => true
  | .error .assertionError => true
  | .error .unrecognizedError => false

end ChannelScraper

/-- A decoded queue message body: `task.get(...)` returns `None` for missing
keys. -/
structure TaskMsg : Type where
  type : Option String
  channel_name : Option String
  from_date : Option String
  deriving DecidableEq, Repr

/-- A parsed calendar date. -/
structure Date : Type where
  day : Nat
  month : Nat
  year : Nat
  deriving DecidableEq, Repr

/-- Split a character list on the dash separator. -/
def splitDash : List Char → List (List Char)
  | [] => [[]]
  | c :: rest =>
    if c = '-' then [] :: splitDash rest
    else
      match splitDash rest with
      | g :: gs => (c :: g) :: gs
      | [] => [[c]]

/-- Numeric value of a digit string. -/
def digitsToNat (cs : List Char) : Nat :=
  cs.foldl (fun n c => 10 * n + (c.toNat - 48)) 0

/-- Days in a month, Gregorian rules (what `datetime` validates against). -/
def daysInMonth (m y : Nat) : Nat :=
  if m = 2 then
    if y % 4 = 0 && (y % 100 != 0 || y % 400 = 0) then 29 else 28
  else if m = 4 || m = 6 || m = 9 || m = 11 then 30
  else 31

/-- `datetime.strptime(s, "%d-%m-%Y")` on a string: three dash-separated
fields, day and month of 1-2 digits, year of exactly 4 digits, all digits,
ranges valid for a real calendar date; any mismatch raises `ValueError`. -/
def parseDMY (s : String) : Except PyError Date :=
  match splitDash s.data with
  | [d, m, y] =>
    if 1 ≤ d.length ∧ d.length ≤ 2 ∧ d.all Char.isDigit ∧
        1 ≤ m.length ∧ m.length ≤ 2 ∧ m.all Char.isDigit ∧
        y.length = 4 ∧ y.all Char.isDigit then
      if 1 ≤ digitsToNat m ∧ digitsToNat m ≤ 12 ∧ 1 ≤ digitsToNat d ∧
          digitsToNat d ≤ daysInMonth (digitsToNat m) (digitsToNat y) then
        .ok ⟨digitsToNat d, digitsToNat m, digitsToNat y⟩
      else .error .valueError
    else .error .valueError
  | _ => .error .valueError

/-- `datetime.strptime(task.get("from_date"), "%d-%m-%Y")`: a missing field
passes `None` to `strptime`, a `TypeError`; a string is parsed. -/
def strptimeDMY : Option String → Except PyError Date
  | none => .error .typeError
  | some s => parseDMY s

/-- Every parse failure of `parseDMY` is a `ValueError`. -/
theorem parseDMY_error_eq (s : String) (e : PyError) (h : parseDMY s = .error e) :
    e = .valueError := by
  unfold parseDMY at h
  split at h
  · split at h
    · split at h
      · cases h
      · injection h with h
        exact h.symm
    · injection h with h
      exact h.symm
  · injection h with h
    exact h.symm

/-- The queue-visible actions `process_task` performs, in order. -/
inductive QueueAction : Type
  | callScrape
  | requeue (task : TaskMsg)
  | ack
  deriving DecidableEq, Repr

namespace Consumer

/-- `Consumer.process_task` (consumer.py, lines 65-90), with the outcome of
the `scraper.scrape(...)` body abstracted as `out`.  Returns the queue
actions performed in order and the exception re-raised by the handler (if
any): a `type` other than `"scrape"` is logged and acked; a failing
`strptime` call raises before any scraping, the handler acks and re-raises;
otherwise the scrape runs and its ack flag decides between plain ack and
requeue-to-end followed by ack. -/
def process_task (out : Except ScrapeErr Unit) (t : TaskMsg) :
    List QueueAction × Option PyError :=
  if t.type = some "scrape" then
    match strptimeDMY t.from_date with
    | .error e => ([.ack], some e)
    | .ok _ =>
      if ChannelScraper.ackOf out then ([.callScrape, .ack], none)
      else ([.callScrape, .requeue t, .ack], none)
  else ([.ack], none)

end Consumer

/-- A well-formed scrape task used in concrete instances. -/
def taskEx : TaskMsg :=
  ⟨some "scrape", some "chan", some "01-01-2024"⟩

/-- C6 counterexample: on a transient failure (here a timeout) the claim says
the task is not acknowledged; but `process_task` re-publishes the task to the
end of the queue and then acknowledges the original message
(`requeue_to_end(task)` followed by `msg.ack()`, consumer.py lines 80-82), so
the acknowledgment does happen. -/
theorem transient_failure_still_acked_counterexample :
    Consumer.process_task (.error .timeoutError) taskEx =
      ([.callScrape, .requeue taskEx, .ack], none) ∧
    QueueAction.ack ∈ (Consumer.process_task (.error .timeoutError) taskEx).1 := by
  exact ⟨rfl, by decide⟩

/-- The errors of the first `except` tuple of `scrape` plus the catch-all:
storage, session/auth, timeout, rate-limit, peer-id and unrecognized errors. -/
def retryableErrs : List ScrapeErr :=
  [.sqlalchemyError, .authKeyPermEmpty, .sessionPasswordNeeded, .timeoutError,
    .authKeyDuplicated, .peerIdInvalid, .floodWait, .unrecognizedError]

/-- The errors of the second `except` tuple of `scrape`: task-bound errors
(invalid or unknown channel, validation failures, assertion failures). -/
def permanentErrs : List ScrapeErr :=
  [.usernameInvalid, .usernameNotOccupied, .valueError, .channelInvalid,
    .channelPrivate, .channelPublicGroupNa, .chatIdInvalid, .assertionError]

/-- C6 amended: for every valid scrape task, a transient error (storage,
session/auth, rate-limited, timeout, peer-id) or an unrecognized error makes
the consumer re-publish the task to the end of the queue for another delivery
attempt and then acknowledge the original message (requeue-then-ack, not a
plain no-ack); only permanent task-bound errors lead to acknowledgment with no
re-publication. -/
theorem transient_errors_requeued_then_acked (t : TaskMsg) (e : ScrapeErr)
    (ht : t.type = some "scrape") (hd : exOk (strptimeDMY t.from_date) = true) :
    (e ∈ retryableErrs →
      Consumer.process_task (.error e) t = ([.callScrape, .requeue t, .ack], none)) ∧
    (e ∈ permanentErrs →
      Consumer.process_task (.error e) t = ([.callScrape, .ack], none)) := by
  obtain ⟨d, hd2⟩ : ∃ d, strptimeDMY t.from_date = .ok d := by
    cases h2 : strptimeDMY t.from_date with
    | ok d => exact ⟨d, rfl⟩
    | error e2 => rw [h2] at hd; cases hd
  constructor <;> intro he <;> fin_cases he <;>
    simp [Consumer.process_task, ht, hd2, ChannelScraper.ackOf]

/-- Closed instance of `transient_errors_requeued_then_acked` at a concrete
valid task. -/
theorem transient_errors_requeued_then_acked_witness :
    (taskEx.type = some "scrape" ∧ exOk (strptimeDMY taskEx.from_date) = true) ∧
    ((ScrapeErr.timeoutError ∈ retryableErrs →
      Consumer.process_task (.error .timeoutError) taskEx =
        ([.callScrape, .requeue taskEx, .ack], none)) ∧
    (ScrapeErr.timeoutError ∈ permanentErrs →
      Consumer.process_task (.error .timeoutError) taskEx =
        ([.callScrape, .ack], none))) :=
  ⟨⟨by decide, by decide⟩,
    transient_errors_requeued_then_acked taskEx .timeoutError (by decide) (by decide)⟩

/-- C10: a queue message of type "scrape" whose `from_date` is missing or not
in DD-MM-YYYY format makes `process_task` raise while parsing the date — a
`TypeError` on `None`, a `ValueError` on a malformed string — before any
scrape call; its handler acknowledges the message and re-raises, so the task
is dropped permanently: the only queue action is the ack, the scrape never
runs, and no store write can occur. -/
theorem malformed_from_date_dropped (out : Except ScrapeErr Unit) (t : TaskMsg) (e : PyError)
    (ht : t.type = some "scrape") (he : strptimeDMY t.from_date = .error e) :
    Consumer.process_task out t = ([.ack], some e) ∧
    QueueAction.callScrape ∉ (Consumer.process_task out t).1 ∧
    (t.from_date = none → e = .typeError) ∧
    (∀ s, t.from_date = some s → e = .valueError) := by
  have h1 : Consumer.process_task out t = ([.ack], some e) := by
    simp [Consumer.process_task, ht, he]
  refine ⟨h1, ?_, ?_, ?_⟩
  · simp [h1]
  · intro hn
    rw [hn] at he
    simp only [strptimeDMY] at he
    injection he with he
    exact he.symm
  · intro s hs
    rw [hs] at he
    simp only [strptimeDMY] at he
    exact parseDMY_error_eq s e he

/-- Closed instance of `malformed_from_date_dropped`: a scrape task with no
`from_date` field is acked with a `TypeError` and never scraped. -/
theorem malformed_from_date_dropped_witness :
    Consumer.process_task (.ok ()) ⟨some "scrape", some "chan", none⟩ =
      ([.ack], some .typeError) ∧
    QueueAction.callScrape ∉
      (Consumer.process_task (.ok ()) ⟨some "scrape", some "chan", none⟩).1 :=
  ⟨(malformed_from_date_dropped (.ok ()) ⟨some "scrape", some "chan", none⟩
      .typeError rfl rfl).1,
    (malformed_from_date_dropped (.ok ()) ⟨some "scrape", some "chan", none⟩
      .typeError rfl rfl).2.1⟩
